import Mathlib

/-!
Shallow embedding of the two source files of `moqidimoc/great_expectations`:

* `contrib/experimental/great_expectations_experimental/expect_queried_column_to_be_hk.py`
  — the custom `ExpectQueriedColumnToBeHK` QueryExpectation: its
  `validate_configuration` and `_validate` methods.
* `great_expectations/data_context/data_context/file_data_context.py`
  — `FileDataContext._get_global_config_value` and
  `FileDataContext._check_global_usage_statistics_env_var_and_file_opt_out`.

Python numbers (int/float) are modelled as `Int`/`ℚ`; Python dynamic values as
the inductive `PyVal`; a raised exception as `Option`/`Except` failure.
-/

/-- A Python runtime value as it can appear in the expectation's kwargs:
an integer, a float (modelled as a rational), a string, a list, `None`,
or the builtin type object `int` itself (relevant only to the identity
comparison `value is not int` in `validate_configuration`). -/
inductive PyVal : Type where
  | int : Int → PyVal
  | float : ℚ → PyVal
  | str : String → PyVal
  | none : PyVal
  | typeInt : PyVal
  | list : List PyVal → PyVal

/-- Python `isinstance(x, (int, float))` together with the numeric value:
`some q` when `x` is a number with value `q`, `none` otherwise. -/
def pyNum? : PyVal → Option ℚ
  | .int n => some (n : ℚ)
  | .float q => some q
  | _ => Option.none

/-- Python identity test `v is int` against the builtin type object `int`.
Only the type object itself is identical to `int`; every ordinary value
(an integer, a string, a list, `None`, ...) is not. -/
def pyIsTypeInt : PyVal → Bool
  | .typeInt => true
  | _ => false

/-- `ObservedFrequencies`: the `query.column` metric, a Python dict mapping
an observed length to the fraction of rows at that length, modelled as an
association list with integer keys. -/
abbrev FreqDict : Type := List (Int × ℚ)

/-- Python `d[k]` on the frequencies dict: `some` the stored fraction, or
`none` for the `KeyError` raised when the key is absent. -/
def dictLookup (d : FreqDict) (k : Int) : Option ℚ :=
  (d.find? (fun p => p.1 == k)).map (fun p => p.2)

/-- Python `query_result[v]` where the dict keys are integers: a non-integer
key is never present, and a missing key raises `KeyError` (`none`). -/
def lookupKey (d : FreqDict) : PyVal → Option ℚ
  | .int n => dictLookup d n
  | _ => Option.none

/-- Python `threshold[i]` followed by use as the right operand of `>=`:
succeeds with the numeric value only when `threshold` is a list, index `i`
is in range, and the element is a number; otherwise a
`TypeError`/`IndexError` (`none`). -/
def subscriptNum (t : PyVal) (i : Nat) : Option ℚ :=
  match t with
  | .list xs =>
    match xs.get? i with
    | some x => pyNum? x
    | Option.none => Option.none
  | _ => Option.none

/-- `all(query_result[value[i]] >= threshold[i] for i in range(len(value)))`:
the generator is evaluated left to right with short-circuiting, so after the
first `False` comparison no further subscript is evaluated. `i` is the index
of the first element of `vs` within the original `value` list. -/
def successSeq (qr : FreqDict) (t : PyVal) : List PyVal → Nat → Option Bool
  | [], _ => some true
  | v :: rest, i =>
    match lookupKey qr v with
    | Option.none => Option.none
    | some q =>
      match subscriptNum t i with
      | Option.none => Option.none
      | some ti => if q ≥ ti then successSeq qr t rest (i + 1) else some false

/-- `[query_result[value[i]] for i in range(len(value))]`: every lookup is
performed; any missing key raises (`none`). -/
def observedSeq (qr : FreqDict) : List PyVal → Option (List ℚ)
  | [] => some []
  | v :: rest => do
    let q ← lookupKey qr v
    let qs ← observedSeq qr rest
    pure (q :: qs)

/-- The `observed_value` field of the returned result dict: a scalar fraction
in scalar mode, a list of fractions in sequence mode. -/
inductive ObsVal : Type where
  | scalar : ℚ → ObsVal
  | seq : List ℚ → ObsVal
deriving DecidableEq

/-- The result dict `{success: ..., result: {observed_value: ...}}` returned
by `_validate`. -/
structure ValResult : Type where
  success : Bool
  observed_value : ObsVal
deriving DecidableEq

/-- `ExpectQueriedColumnToBeHK._validate`, lines 105-136 of the source.
`value` and `threshold` come from `configuration["kwargs"]`; `qr` is the
(copied) `query.column` metric. `none` models an uncaught exception
(`KeyError` on a missing length, `TypeError`/`IndexError` on a malformed
threshold). -/
def ExpectQueriedColumnToBeHK._validate (value threshold : PyVal) (qr : FreqDict) :
    Option ValResult :=
  match value with
  | .list vs => do
    let success ← successSeq qr threshold vs 0
    let obs ← observedSeq qr vs
    pure ⟨success, .seq obs⟩
  | v => do
    let q ← lookupKey qr v
    let t ← pyNum? threshold
    pure ⟨decide (q ≥ t), .scalar q⟩

/-- Which assertion of `validate_configuration` failed (the `AssertionError`
is re-raised as `InvalidExpectationConfigurationError` with the assert's
message). -/
inductive ConfigError : Type where
  /-- message: value must be an integer -/
  | valueType : ConfigError
  /-- message: threshold must be 1, a float between 0 and 1, or a list of
  floats whose sum is between 0 and 1 -/
  | thresholdRange : ConfigError
  /-- message: value and threshold must contain the same number of
  arguments -/
  | shapePairing : ConfigError
deriving DecidableEq

/-- The second assert of `validate_configuration` (lines 90-95): `threshold`
is a number in `(0, 1]`, or a list of numbers each in `(0, 1]` whose sum is
in `(0, 1]`. Python's `and` short-circuits, so `sum(threshold)` is only
reached once every element is a number. -/
def thresholdAssert (threshold : PyVal) : Bool :=
  (match pyNum? threshold with
   | some t => decide (0 < t ∧ t ≤ 1)
   | Option.none => false) ||
  (match threshold with
   | .list xs =>
     xs.all (fun x => (pyNum? x).isSome) &&
     xs.all (fun x =>
       match pyNum? x with
       | some q => decide (0 < q ∧ q ≤ 1)
       | Option.none => false) &&
     decide (0 < (xs.map (fun x => (pyNum? x).getD 0)).sum ∧
             (xs.map (fun x => (pyNum? x).getD 0)).sum ≤ 1)
   | _ => false)

/-- The third assert (lines 96-99): only when `threshold` is a list, `value`
must also be a list of the same length. -/
def shapeAssert (value threshold : PyVal) : Bool :=
  match threshold with
  | .list ts =>
    match value with
    | .list vs => decide (vs.length = ts.length)
    | _ => false
  | _ => true

/-- `ExpectQueriedColumnToBeHK.validate_configuration`, lines 88-101 of the
source: the three asserts run in order inside a `try`, and the first failing
one is re-raised as `InvalidExpectationConfigurationError`. -/
def ExpectQueriedColumnToBeHK.validate_configuration (value threshold : PyVal) :
    Except ConfigError Unit :=
  if pyIsTypeInt value then .error .valueType
  else if ¬ thresholdAssert threshold then .error .thresholdRange
  else if ¬ shapeAssert value threshold then .error .shapePairing
  else .ok ()

/-! ### `FileDataContext` (file_data_context.py) -/

/-- Python truthiness of `os.environ.get(name, False)` / an optional string
argument: truthy exactly when present and non-empty. -/
def pyTruthyOpt : Option String → Bool
  | some s => !s.isEmpty
  | Option.none => false

/-- The process environment and the global config files, the external state
read by `FileDataContext`'s classmethods. Each entry of `configFiles`
corresponds to one path of `AbstractDataContext.GLOBAL_CONFIG_PATHS`, in
order, as a `section → option → value` lookup (a missing or unreadable file
is the everywhere-`none` lookup, matching `configparser`'s silent
`config.read` of a missing path followed by `fallback=None`). -/
structure GlobalConfigEnv : Type where
  env : String → Option String
  configFiles : List (String → String → Option String)

/-- The `for config_path in AbstractDataContext.GLOBAL_CONFIG_PATHS` loop of
`_get_global_config_value` (lines 85-92): the first truthy (non-empty) value
found for the section/option is returned, else `None`. -/
def firstFileValue : List (String → String → Option String) → String → String → Option String
  | [], _, _ => Option.none
  | f :: rest, sec, opt =>
    match f sec opt with
    | some v => if !v.isEmpty then some v else firstFileValue rest sec opt
    | Option.none => firstFileValue rest sec opt

/-- `FileDataContext._get_global_config_value`, lines 72-93 of the source.
`Except.error ()` models the `AssertionError` of lines 79-81 escaping the
call. Both the assert and the later guards use Python truthiness, so a
present-but-empty string behaves like `None`. -/
def FileDataContext._get_global_config_value (g : GlobalConfigEnv)
    (environment_variable : String)
    (conf_file_section conf_file_option : Option String) :
    Except Unit (Option String) :=
  if ¬ ((pyTruthyOpt conf_file_section && pyTruthyOpt conf_file_option) ||
        (!pyTruthyOpt conf_file_section && !pyTruthyOpt conf_file_option)) then
    .error ()
  else if !environment_variable.isEmpty && pyTruthyOpt (g.env environment_variable) then
    .ok (g.env environment_variable)
  else if pyTruthyOpt conf_file_section && pyTruthyOpt conf_file_option then
    .ok (firstFileValue g.configFiles (conf_file_section.getD "") (conf_file_option.getD ""))
  else
    .ok Option.none

/-- External state read by
`_check_global_usage_statistics_env_var_and_file_opt_out`:
the `GE_USAGE_STATS` environment variable, the contents of
`AbstractDataContext.FALSEY_STRINGS` (a constant of the base class, not part
of this repository snapshot, so kept abstract), and, per global config path
in order, the outcome of `config.getboolean("anonymous_usage_statistics",
"enabled")` under the amended `BOOLEAN_STATES`: `some b` when it parses to
`b`, `none` when the option is missing or unparsable (the caught
`ValueError`/`configparser.Error`). -/
structure UsageStatsEnv : Type where
  geUsageStats : Option String
  falseyStrings : List String
  fileEnabledParse : List (Option Bool)

/-- The `for config_path in AbstractDataContext.GLOBAL_CONFIG_PATHS` loop of
lines 55-69: return `True` at the first file whose
`anonymous_usage_statistics/enabled` parses to `False`; parse failures are
swallowed; `False` after the loop. -/
def fileOptOut : List (Option Bool) → Bool
  | [] => false
  | r :: rest => if r == some false then true else fileOptOut rest

/-- `FileDataContext._check_global_usage_statistics_env_var_and_file_opt_out`,
lines 43-70 of the source. When `GE_USAGE_STATS` is truthy but not one of
`FALSEY_STRINGS`, the code only logs a warning and falls through to the
config-file loop. -/
def FileDataContext._check_global_usage_statistics_env_var_and_file_opt_out
    (e : UsageStatsEnv) : Bool :=
  if pyTruthyOpt e.geUsageStats then
    if e.falseyStrings.contains (e.geUsageStats.getD "") then true
    else fileOptOut e.fileEnabledParse
  else fileOptOut e.fileEnabledParse

/-! ### Heap model for the frame claim about `_validate` -/

/-- A heap of Python dict objects reachable from `_validate`'s inputs:
addresses mapped to `ObservedFrequencies` contents. -/
structure Heap : Type where
  dicts : List (Nat × FreqDict)

/-- Dereference an address. -/
def heapGet (h : Heap) (a : Nat) : Option FreqDict :=
  (h.dicts.find? (fun p => p.1 == a)).map (fun p => p.2)

/-- An address not yet in use. -/
def freshAddr (h : Heap) : Nat :=
  (h.dicts.map (fun p => p.1)).foldr max 0 + 1

/-- `dict(query_result)`: allocate a fresh dict holding a copy of the given
contents, leaving every existing object untouched. -/
def heapAlloc (h : Heap) (d : FreqDict) : Heap × Nat :=
  (⟨(freshAddr h, d) :: h.dicts⟩, freshAddr h)

/-- Python `.get` on the kwargs dict: absent keys give `None`. -/
def kwargsGet (kwargs : List (String × PyVal)) (k : String) : PyVal :=
  match (kwargs.find? (fun p => p.1 == k)).map (fun p => p.2) with
  | some v => v
  | Option.none => PyVal.none

/-- `_validate` again, statement by statement, with the Python heap passed
explicitly: the kwargs reads, the `metrics.get("query.column")` read, the
`dict(query_result)` copy, and the computation on the copy. The result pairs
the final heap with the returned dict (`none` when an exception escapes,
which leaves the heap as it stood). -/
def ExpectQueriedColumnToBeHK._validate_st (kwargs : List (String × PyVal))
    (metrics : List (String × Nat)) (h : Heap) : Heap × Option ValResult :=
  let value := kwargsGet kwargs "value"
  let threshold := kwargsGet kwargs "threshold"
  match (metrics.find? (fun p => p.1 == "query.column")).map (fun p => p.2) with
  | Option.none => (h, Option.none)
  | some addr =>
    match heapGet h addr with
    | Option.none => (h, Option.none)
    | some qr =>
      let alloc := heapAlloc h qr
      match heapGet alloc.1 alloc.2 with
      | Option.none => (alloc.1, Option.none)
      | some qrCopy =>
        (alloc.1, ExpectQueriedColumnToBeHK._validate value threshold qrCopy)

/-! ### Spec-side definitions (for refinement-style claims) -/

/-- The spec's `ObservedFrequencies.get(target_length, default 0)`: the
observed frequency of a length, with absent lengths counting as zero. -/
def obsFreq (qr : FreqDict) (l : Int) : ℚ :=
  (dictLookup qr l).getD 0

/-- The spec's threshold rule, written from the spec's words: thresholds is
either a single number strictly greater than 0 and at most 1, or a sequence
of numbers each strictly greater than 0 and at most 1 whose sum is strictly
greater than 0 and at most 1. -/
def specThresholdOk (threshold : PyVal) : Bool :=
  match threshold with
  | .list xs =>
    xs.all (fun x => (pyNum? x).isSome) &&
    xs.all (fun x =>
      match pyNum? x with
      | some q => decide (0 < q ∧ q ≤ 1)
      | Option.none => false) &&
    decide (0 < (xs.map (fun x => (pyNum? x).getD 0)).sum ∧
            (xs.map (fun x => (pyNum? x).getD 0)).sum ≤ 1)
  | x =>
    match pyNum? x with
    | some t => decide (0 < t ∧ t ≤ 1)
    | Option.none => false

/-- The spec's pairing rule, written from the spec's words: if thresholds is
a sequence, target_lengths must be a sequence of the same length. -/
def specPairingOk (value threshold : PyVal) : Bool :=
  match threshold with
  | .list ts =>
    match value with
    | .list vs => decide (vs.length = ts.length)
    | _ => false
  | _ => true

/-- `v` is a Python list of exactly `n` elements. -/
def isListOfLength (v : PyVal) (n : Nat) : Bool :=
  match v with
  | .list vs => decide (vs.length = n)
  | _ => false

/-- A sample external state for `FileDataContext`: one environment variable
set, no readable config file. -/
def sampleGlobalEnv : GlobalConfigEnv :=
  ⟨fun n => if n = "GE_X" then some "fromenv" else Option.none, []⟩

/-- A sample external state with nothing set at all. -/
def emptyGlobalEnv : GlobalConfigEnv :=
  ⟨fun _ => Option.none, []⟩

/-! ### Helper lemmas -/

/-- Sequence-mode observed-value comprehension: when every target length is
present in the frequencies dict, the comprehension succeeds and returns the
per-length frequencies. -/
theorem observedSeq_map_int (qr : FreqDict) (ls : List Int)
    (h : ∀ l ∈ ls, (dictLookup qr l).isSome) :
    observedSeq qr (ls.map PyVal.int) = some (ls.map (obsFreq qr)) := by
  induction ls with
  | nil => rfl
  | cons l ls ih =>
    obtain ⟨q, hq⟩ := Option.isSome_iff_exists.mp (h l (by simp))
    have hrest := ih (fun x hx => h x (by simp [hx]))
    simp [observedSeq, lookupKey, hq, hrest, obsFreq]

/-- Subscripting the threshold list one position further right is the same
as dropping its head. -/
theorem successSeq_shift (qr : FreqDict) (t0 : ℚ) (ts : List ℚ) (vs : List PyVal) (i : Nat) :
    successSeq qr (PyVal.list ((t0 :: ts).map PyVal.float)) vs (i + 1) =
      successSeq qr (PyVal.list (ts.map PyVal.float)) vs i := by
  induction vs generalizing i with
  | nil => rfl
  | cons v vs ih =>
    have hsub : subscriptNum (PyVal.list (PyVal.float t0 :: ts.map PyVal.float)) (i + 1) =
        subscriptNum (PyVal.list (ts.map PyVal.float)) i := by
      simp [subscriptNum]
    have ih2 := ih (i + 1)
    simp only [List.map_cons] at ih2
    cases hv : lookupKey qr v with
    | none => simp [successSeq, hv]
    | some q =>
      cases hs : subscriptNum (PyVal.list (ts.map PyVal.float)) i with
      | none => simp [successSeq, hv, hsub, hs]
      | some ti =>
        by_cases hq : q ≥ ti
        · simp [successSeq, hv, hsub, hs, hq, ih2]
        · simp [successSeq, hv, hsub, hs, hq, ge_iff_le]

/-- Sequence-mode success generator: when every target length is present and
the threshold list covers the targets, the short-circuiting `all(...)`
computes the conjunction of the pairwise comparisons. -/
theorem successSeq_eq_all (qr : FreqDict) (ls : List Int) :
    ∀ ts : List ℚ, (∀ l ∈ ls, (dictLookup qr l).isSome) → ls.length ≤ ts.length →
    successSeq qr (PyVal.list (ts.map PyVal.float)) (ls.map PyVal.int) 0 =
      some (((ls.map (obsFreq qr)).zip ts).all (fun p => decide (p.1 ≥ p.2))) := by
  induction ls with
  | nil => intro ts _ _; simp [successSeq]
  | cons l ls ih =>
    intro ts h hlen
    cases ts with
    | nil => simp at hlen
    | cons t ts =>
      obtain ⟨q, hq⟩ := Option.isSome_iff_exists.mp (h l (by simp))
      have hfreq : obsFreq qr l = q := by simp [obsFreq, hq]
      have hrest := ih ts (fun x hx => h x (by simp [hx])) (by simpa using Nat.lt_succ_iff.mp (Nat.lt_succ_of_le hlen))
      have hshift := successSeq_shift qr t ts (ls.map PyVal.int) 0
      simp only [List.map_cons] at hshift
      by_cases hcmp : q ≥ t
      · simp [successSeq, lookupKey, subscriptNum, pyNum?, hq, hfreq, hcmp, hshift, hrest,
              ge_iff_le]
      · simp [successSeq, lookupKey, subscriptNum, pyNum?, hq, hfreq, hcmp, ge_iff_le]

/-! ### Claim theorems -/

/-- C1 counterexample: with `ObservedFrequencies = {}`, `target = 32`,
`threshold = 0.1`, `_validate` does not return a result at all — the
subscript `query_result[value]` raises `KeyError` — contradicting the
claimed result `success = false, observed_value = 0`. -/
theorem C1_missing_key_defaults_counterexample :
    ExpectQueriedColumnToBeHK._validate (PyVal.int 32) (PyVal.float (1/10)) [] =
      Option.none := by
  rfl

/-- C1 (amended): `_validate` indexes `ObservedFrequencies` directly, so
whenever the scalar target length is absent from the mapping the call fails
with `KeyError` instead of treating the frequency as 0. -/
theorem C1_missing_key_raises (L : Int) (t : PyVal) (qr : FreqDict)
    (h : dictLookup qr L = Option.none) :
    ExpectQueriedColumnToBeHK._validate (PyVal.int L) t qr = Option.none := by
  simp [ExpectQueriedColumnToBeHK._validate, lookupKey, h]

/-- C1 witness: the amended theorem at `target = 32`, `threshold = 0.1`,
empty frequencies. -/
theorem C1_missing_key_raises_witness :
    dictLookup ([] : FreqDict) 32 = Option.none ∧
    ExpectQueriedColumnToBeHK._validate (PyVal.int 32) (PyVal.float (1/10)) [] =
      Option.none :=
  ⟨rfl, C1_missing_key_raises 32 (PyVal.float (1/10)) [] rfl⟩

/-- C2: in scalar mode, when the target length `L` is present with frequency
`q` and the threshold is a scalar `t ∈ (0, 1]`, `_validate` returns
`observed_value = q` and `success` exactly when `q ≥ t`. -/
theorem C2_scalar_mode (L : Int) (t q : ℚ) (qr : FreqDict)
    (hq : dictLookup qr L = some q) (_ht0 : 0 < t) (_ht1 : t ≤ 1) :
    ExpectQueriedColumnToBeHK._validate (PyVal.int L) (PyVal.float t) qr =
      some ⟨decide (q ≥ t), ObsVal.scalar q⟩ := by
  simp [ExpectQueriedColumnToBeHK._validate, lookupKey, pyNum?, hq]

/-- C2 witness: frequencies `{32 ↦ 1}`, target 32, threshold 1/2. -/
theorem C2_scalar_mode_witness :
    dictLookup [((32 : Int), (1 : ℚ))] 32 = some 1 ∧ (0 : ℚ) < 1/2 ∧ (1 : ℚ)/2 ≤ 1 ∧
    ExpectQueriedColumnToBeHK._validate (PyVal.int 32) (PyVal.float (1/2))
        [((32 : Int), (1 : ℚ))] =
      some ⟨decide ((1 : ℚ) ≥ 1/2), ObsVal.scalar 1⟩ :=
  ⟨by decide, by norm_num, by norm_num,
   C2_scalar_mode 32 (1/2) 1 [((32 : Int), (1 : ℚ))] (by decide) (by norm_num) (by norm_num)⟩

/-- C3 counterexample: in sequence mode a missing target length is not
reported as frequency 0 — `_validate` fails with `KeyError`: with
`ObservedFrequencies = {}`, `target_lengths = [32]`, `thresholds = [0.5]`
no result is returned (the claim, with the spec's
`ObservedFrequencies.get(·, default 0)`, would demand
`success = false, observed_value = [0]`). -/
theorem C3_sequence_missing_key_counterexample :
    ExpectQueriedColumnToBeHK._validate (PyVal.list [PyVal.int 32])
      (PyVal.list [PyVal.float (1/2)]) [] = Option.none := by
  rfl

/-- C3 (amended): in sequence mode, provided every target length is present
in `ObservedFrequencies`, `_validate` returns the list of per-index observed
frequencies (matching the sequence shape of `target_lengths`) and succeeds
exactly when every observed frequency is at least its paired threshold. -/
theorem C3_sequence_mode (ls : List Int) (ts : List ℚ) (qr : FreqDict)
    (hlen : ls.length = ts.length)
    (h : ∀ l ∈ ls, (dictLookup qr l).isSome) :
    ExpectQueriedColumnToBeHK._validate (PyVal.list (ls.map PyVal.int))
        (PyVal.list (ts.map PyVal.float)) qr =
      some ⟨((ls.map (obsFreq qr)).zip ts).all (fun p => decide (p.1 ≥ p.2)),
            ObsVal.seq (ls.map (obsFreq qr))⟩ := by
  have hsucc := successSeq_eq_all qr ls ts h (le_of_eq hlen)
  have hobs := observedSeq_map_int qr ls h
  simp [ExpectQueriedColumnToBeHK._validate, hsucc, hobs]

/-- C3 witness: frequencies `{32 ↦ 1, 16 ↦ 1/2}`, targets `[32, 16]`,
thresholds `[9/10, 1/10]`. -/
theorem C3_sequence_mode_witness :
    ([(32 : Int), 16].length = [(9 : ℚ)/10, 1/10].length) ∧
    (∀ l ∈ [(32 : Int), 16],
      (dictLookup [((32 : Int), (1 : ℚ)), (16, 1/2)] l).isSome) ∧
    ExpectQueriedColumnToBeHK._validate
        (PyVal.list ([(32 : Int), 16].map PyVal.int))
        (PyVal.list ([(9 : ℚ)/10, 1/10].map PyVal.float))
        [((32 : Int), (1 : ℚ)), (16, 1/2)] =
      some ⟨((([(32 : Int), 16].map (obsFreq [((32 : Int), (1 : ℚ)), (16, 1/2)])).zip
                [(9 : ℚ)/10, 1/10]).all (fun p => decide (p.1 ≥ p.2))),
            ObsVal.seq ([(32 : Int), 16].map (obsFreq [((32 : Int), (1 : ℚ)), (16, 1/2)]))⟩ :=
  ⟨rfl, by decide,
   C3_sequence_mode [(32 : Int), 16] [(9 : ℚ)/10, 1/10]
     [((32 : Int), (1 : ℚ)), (16, 1/2)] rfl (by decide)⟩

/-- C4: for every actually-supplied value (anything but the `int` type
object itself), `validate_configuration` succeeds exactly when the
threshold satisfies the spec's rule (a single number in `(0, 1]`, or a
sequence of numbers each in `(0, 1]` with sum in `(0, 1]`) and the
sequence shape-pairing rule holds; in particular `threshold = 1.5` and
`threshold = [0.5, 0.6]` (sum 1.1) both raise the threshold
`InvalidExpectationConfigurationError`. -/
theorem C4_validate_configuration_iff (value threshold : PyVal)
    (hv : pyIsTypeInt value = false) :
    ((ExpectQueriedColumnToBeHK.validate_configuration value threshold = Except.ok ()) ↔
      (specThresholdOk threshold = true ∧ specPairingOk value threshold = true)) ∧
    ExpectQueriedColumnToBeHK.validate_configuration (PyVal.int 32) (PyVal.float (3/2)) =
      Except.error ConfigError.thresholdRange ∧
    ExpectQueriedColumnToBeHK.validate_configuration
        (PyVal.list [PyVal.int 32, PyVal.int 16])
        (PyVal.list [PyVal.float (1/2), PyVal.float (3/5)]) =
      Except.error ConfigError.thresholdRange := by
  have hthr : thresholdAssert threshold = specThresholdOk threshold := by
    cases threshold <;> simp [thresholdAssert, specThresholdOk, pyNum?]
  have hshape : shapeAssert value threshold = specPairingOk value threshold := by
    cases threshold <;> cases value <;> simp [shapeAssert, specPairingOk]
  have hbad1 : thresholdAssert (PyVal.float (3/2)) = false := by
    simp only [thresholdAssert, pyNum?]
    norm_num
  have hbad2 : thresholdAssert
      (PyVal.list [PyVal.float (1/2), PyVal.float (3/5)]) = false := by
    simp only [thresholdAssert, pyNum?, List.all_cons, List.all_nil, List.map_cons,
               List.map_nil, List.sum_cons, List.sum_nil, Option.isSome_some, Option.getD_some]
    norm_num
  refine ⟨?_, ?_, ?_⟩
  · unfold ExpectQueriedColumnToBeHK.validate_configuration
    rw [hv, hthr, hshape]
    by_cases h1 : specThresholdOk threshold <;>
      by_cases h2 : specPairingOk value threshold <;> simp [h1, h2]
  · unfold ExpectQueriedColumnToBeHK.validate_configuration
    rw [hbad1]
    rfl
  · unfold ExpectQueriedColumnToBeHK.validate_configuration
    rw [hbad2]
    rfl

/-- C4 witness: the iff instantiated at `value = 32`, `threshold = 1.5`. -/
theorem C4_validate_configuration_iff_witness :
    pyIsTypeInt (PyVal.int 32) = false ∧
    (((ExpectQueriedColumnToBeHK.validate_configuration (PyVal.int 32) (PyVal.float (3/2)) =
        Except.ok ()) ↔
      (specThresholdOk (PyVal.float (3/2)) = true ∧
       specPairingOk (PyVal.int 32) (PyVal.float (3/2)) = true)) ∧
    ExpectQueriedColumnToBeHK.validate_configuration (PyVal.int 32) (PyVal.float (3/2)) =
      Except.error ConfigError.thresholdRange ∧
    ExpectQueriedColumnToBeHK.validate_configuration
        (PyVal.list [PyVal.int 32, PyVal.int 16])
        (PyVal.list [PyVal.float (1/2), PyVal.float (3/5)]) =
      Except.error ConfigError.thresholdRange) :=
  ⟨rfl, C4_validate_configuration_iff (PyVal.int 32) (PyVal.float (3/2)) rfl⟩

/-- C5 counterexample: `target_lengths = [32, 16]` with the scalar
`threshold = 0.9` does NOT raise — the pairing assert only runs when the
threshold is a list, so `validate_configuration` accepts this shape
mismatch (the claim said it fails with a ConfigurationError). -/
theorem C5_scalar_threshold_counterexample :
    ExpectQueriedColumnToBeHK.validate_configuration
      (PyVal.list [PyVal.int 32, PyVal.int 16]) (PyVal.float (9/10)) = Except.ok () := by
  have hthr : thresholdAssert (PyVal.float (9/10)) = true := by
    simp only [thresholdAssert, pyNum?]
    norm_num
  unfold ExpectQueriedColumnToBeHK.validate_configuration
  rw [hthr]
  rfl

/-- C5 (amended): whenever the threshold is a sequence,
`validate_configuration` raises unless the value is also a sequence of the
same length (so a scalar value with a list threshold always raises); but
the pairing check runs only for list thresholds, so a list value paired
with a scalar threshold — e.g. target_lengths=[32,16], threshold=0.9 —
passes validation. -/
theorem C5_list_threshold_requires_matching_list (value : PyVal) (ts : List PyVal)
    (h : isListOfLength value ts.length = false) :
    ExpectQueriedColumnToBeHK.validate_configuration value (PyVal.list ts) ≠
      Except.ok () := by
  have hshape : shapeAssert value (PyVal.list ts) = false := by
    cases value <;> simp_all [shapeAssert, isListOfLength]
  intro hok
  unfold ExpectQueriedColumnToBeHK.validate_configuration at hok
  rw [hshape] at hok
  by_cases h1 : pyIsTypeInt value <;>
    by_cases h2 : thresholdAssert (PyVal.list ts) <;> simp [h1, h2] at hok

/-- C5 witness: the amended theorem at a scalar value with a list
threshold. -/
theorem C5_list_threshold_requires_matching_list_witness :
    isListOfLength (PyVal.int 32) ([PyVal.float 1].length) = false ∧
    ExpectQueriedColumnToBeHK.validate_configuration (PyVal.int 32)
      (PyVal.list [PyVal.float 1]) ≠ Except.ok () :=
  ⟨rfl, C5_list_threshold_requires_matching_list (PyVal.int 32) [PyVal.float 1] rfl⟩

/-- C6: the `assert value is not int` check compares the value with the
builtin type object `int` by identity, so for every actually-supplied
configuration value (an integer, float, string, list, None — anything but
the type object itself) it holds, and `validate_configuration` never raises
with the message "value must be an integer". -/
theorem C6_value_type_check_vacuous (value threshold : PyVal)
    (hv : pyIsTypeInt value = false) :
    ExpectQueriedColumnToBeHK.validate_configuration value threshold ≠
      Except.error ConfigError.valueType := by
  intro hc
  unfold ExpectQueriedColumnToBeHK.validate_configuration at hc
  rw [hv] at hc
  by_cases h1 : thresholdAssert threshold <;>
    by_cases h2 : shapeAssert value threshold <;> simp [h1, h2] at hc

/-- C6 witness: a string value (as the `value` kwarg could well be at
runtime) never triggers the value-type assert. -/
theorem C6_value_type_check_vacuous_witness :
    pyIsTypeInt (PyVal.str "abc") = false ∧
    ExpectQueriedColumnToBeHK.validate_configuration (PyVal.str "abc") PyVal.none ≠
      Except.error ConfigError.valueType :=
  ⟨rfl, C6_value_type_check_vacuous (PyVal.str "abc") PyVal.none rfl⟩

/-- C7: `_get_global_config_value` resolves with environment-first
precedence — a non-empty environment value is returned as-is (regardless of
the config files); otherwise the global config files are consulted in order
and the first non-empty value for the section/option wins; `None` if
nothing is found. -/
theorem C7_global_config_precedence (g : GlobalConfigEnv) (ev sec opt : String)
    (hev : ev.isEmpty = false) (hs : sec.isEmpty = false) (ho : opt.isEmpty = false) :
    FileDataContext._get_global_config_value g ev (some sec) (some opt) =
      Except.ok (match g.env ev with
        | some v => if v.isEmpty then firstFileValue g.configFiles sec opt else some v
        | Option.none => firstFileValue g.configFiles sec opt) := by
  unfold FileDataContext._get_global_config_value
  cases henv : g.env ev with
  | none => simp [pyTruthyOpt, hs, ho, hev, henv]
  | some v =>
    by_cases hv : v.isEmpty <;> simp [pyTruthyOpt, hs, ho, hev, henv, hv]

/-- C7 witness: environment variable set, no config files. -/
theorem C7_global_config_precedence_witness :
    ("GE_X".isEmpty = false) ∧ ("stats".isEmpty = false) ∧ ("url".isEmpty = false) ∧
    FileDataContext._get_global_config_value sampleGlobalEnv "GE_X"
        (some "stats") (some "url") =
      Except.ok (match sampleGlobalEnv.env "GE_X" with
        | some v => if v.isEmpty then firstFileValue sampleGlobalEnv.configFiles "stats" "url"
                    else some v
        | Option.none => firstFileValue sampleGlobalEnv.configFiles "stats" "url") :=
  ⟨rfl, rfl, rfl,
   C7_global_config_precedence sampleGlobalEnv "GE_X" "stats" "url" rfl rfl rfl⟩

/-- C9 counterexample: with `conf_file_section = ""` (provided) and
`conf_file_option = None` (omitted) — exactly one of the two provided — the
assert does NOT fire: both arguments are Python-falsy, so
`_get_global_config_value` proceeds and returns `None` instead of raising
the AssertionError the claim demands. -/
theorem C9_assert_empty_string_counterexample :
    ((some "" : Option String).isSome = true) ∧
    ((Option.none : Option String).isSome = false) ∧
    FileDataContext._get_global_config_value emptyGlobalEnv "EV" (some "") Option.none =
      Except.ok Option.none := by
  refine ⟨rfl, rfl, ?_⟩
  rfl

/-- C9 (amended): the assert fires exactly when precisely one of
`conf_file_section` and `conf_file_option` is Python-truthy (provided and
non-empty) — a provided empty string counts as omitted; the call proceeds
when both are truthy or both are falsy. -/
theorem C9_assert_truthiness (g : GlobalConfigEnv) (ev : String)
    (s o : Option String) :
    FileDataContext._get_global_config_value g ev s o = Except.error () ↔
      pyTruthyOpt s ≠ pyTruthyOpt o := by
  unfold FileDataContext._get_global_config_value
  by_cases hs : pyTruthyOpt s <;> by_cases ho : pyTruthyOpt o <;>
    simp [hs, ho] <;> split <;> simp

/-- C10: the usage-statistics opt-out check returns `True` exactly when the
`GE_USAGE_STATS` environment variable is set (non-empty) to one of the
recognized falsey strings, or some global config file's
`anonymous_usage_statistics/enabled` option parses to `False`. A truthy but
unrecognized `GE_USAGE_STATS` value only triggers a warning and falls
through to the file check, so it can never force opt-in over a file-based
opt-out, and `False` comes back only when neither source disables usage
statistics. -/
theorem C10_usage_stats_opt_out (e : UsageStatsEnv) :
    FileDataContext._check_global_usage_statistics_env_var_and_file_opt_out e =
      ((pyTruthyOpt e.geUsageStats &&
          e.falseyStrings.contains (e.geUsageStats.getD "")) ||
        e.fileEnabledParse.any (fun r => r == some false)) := by
  have hfile : ∀ l : List (Option Bool), fileOptOut l = l.any (fun r => r == some false) := by
    intro l
    induction l with
    | nil => rfl
    | cons r rest ih => by_cases h : r == some false <;> simp [fileOptOut, h, ih]
  unfold FileDataContext._check_global_usage_statistics_env_var_and_file_opt_out
  by_cases h1 : pyTruthyOpt e.geUsageStats <;>
    by_cases h2 : e.falseyStrings.contains (e.geUsageStats.getD "") <;>
    simp [h1, h2, hfile]

/-- Every element of a list of naturals is bounded by its max-fold. -/
theorem le_foldr_max (l : List Nat) (x : Nat) (hx : x ∈ l) : x ≤ l.foldr max 0 := by
  induction l with
  | nil => cases hx
  | cons y l ih =>
    rcases List.mem_cons.mp hx with h | h
    · subst h
      exact le_max_left _ _
    · exact le_trans (ih h) (le_max_right _ _)

/-- A dereferenceable address occurs among the heap's addresses. -/
theorem heapGet_mem_addr (h : Heap) (a : Nat) (d : FreqDict)
    (hd : heapGet h a = some d) : a ∈ h.dicts.map (fun p => p.1) := by
  unfold heapGet at hd
  cases hf : h.dicts.find? (fun p => p.1 == a) with
  | none => rw [hf] at hd; cases hd
  | some p =>
    have hmem := List.mem_of_find?_eq_some hf
    have hpred := List.find?_some hf
    have : p.1 = a := by simpa using hpred
    exact this ▸ List.mem_map_of_mem (fun p => p.1) hmem

/-- Allocating at the fresh address leaves every existing object readable
with its old contents. -/
theorem heapGet_after_alloc (h : Heap) (d0 : FreqDict) (a : Nat) (d : FreqDict)
    (hd : heapGet h a = some d) :
    heapGet ⟨(freshAddr h, d0) :: h.dicts⟩ a = some d := by
  have ha : a ∈ h.dicts.map (fun p => p.1) := heapGet_mem_addr h a d hd
  have hlt : a < freshAddr h :=
    Nat.lt_succ_of_le (le_foldr_max (h.dicts.map (fun p => p.1)) a ha)
  have hne : (freshAddr h == a) = false := by
    simp [Nat.ne_of_gt hlt]
  unfold heapGet at hd ⊢
  simp only [List.find?]
  rw [hne]
  exact hd

/-- C8: `_validate` leaves every pre-existing heap object — the
configuration, the metrics mapping, and in particular the `query.column`
dict, which it copies before subscripting — unchanged: after the call every
address readable before still holds exactly its old contents, whether the
call returns a result or raises. -/
theorem C8_validate_frame (kwargs : List (String × PyVal))
    (metrics : List (String × Nat)) (h : Heap) (a : Nat) (d : FreqDict)
    (hd : heapGet h a = some d) :
    heapGet (ExpectQueriedColumnToBeHK._validate_st kwargs metrics h).1 a = some d := by
  unfold ExpectQueriedColumnToBeHK._validate_st
  cases hm : (metrics.find? (fun p => p.1 == "query.column")).map (fun p => p.2) with
  | none => simpa using hd
  | some addr =>
    cases hq : heapGet h addr with
    | none => simp only [hq]; simpa using hd
    | some qr =>
      have hpres := heapGet_after_alloc h qr a d hd
      simp only [hq, heapAlloc]
      split <;> simpa [heapAlloc] using hpres

/-- C8 witness: a one-object heap holding the `query.column` dict. -/
theorem C8_validate_frame_witness :
    heapGet ⟨[(1, [((32 : Int), (1 : ℚ))])]⟩ 1 = some [((32 : Int), (1 : ℚ))] ∧
    heapGet (ExpectQueriedColumnToBeHK._validate_st
        [("value", PyVal.int 32), ("threshold", PyVal.float 1)]
        [("query.column", 1)] ⟨[(1, [((32 : Int), (1 : ℚ))])]⟩).1 1 =
      some [((32 : Int), (1 : ℚ))] :=
  ⟨rfl, C8_validate_frame [("value", PyVal.int 32), ("threshold", PyVal.float 1)]
    [("query.column", 1)] ⟨[(1, [((32 : Int), (1 : ℚ))])]⟩ 1 [((32 : Int), (1 : ℚ))] rfl⟩
